import Mathlib

/-!
Verification development for the panopto-scraper program (src/panopto.py).
The Python source is shallowly embedded: network and file-system effects are
passed in explicitly (response oracles, stored blobs, byte fetchers), and each
Python function becomes a pure Lean function over that explicit state.
-/

namespace PanoptoScraper

/-- Model of Python `str.replace(old, new)` on character lists, fuelled by the
length of the scanned list so that it is structurally recursive and hence
evaluates by kernel reduction.  At each position: if `old` matches as a
sub-list starting here, emit `new` and skip `old.length` characters, else emit
the current character and move one character forward.  This is the left-to-right
replace-every-occurrence semantics of Python for a non-empty `old` (the only
way the program uses it). -/
def pyReplaceFuel (old new : List Char) : Nat → List Char → List Char
  | 0, s => s
  | _, [] => []
  | fuel + 1, c :: rest =>
    if old.isPrefixOf (c :: rest) then
      new ++ pyReplaceFuel old new fuel (rest.drop (old.length - 1))
    else
      c :: pyReplaceFuel old new fuel rest

/-- Python `s.replace(old, new)` on character lists. -/
def pyReplace (old new s : List Char) : List Char :=
  pyReplaceFuel old new s.length s

/-- Python `s.replace(old, new)` on strings. -/
def pyReplaceStr (s old new : String) : String :=
  ⟨pyReplace old.data new.data s.data⟩

/-- Model of Python `sub in s` (substring containment) on character lists. -/
def containsSub (sub : List Char) : List Char → Bool
  | [] => sub.isEmpty
  | c :: rest => sub.isPrefixOf (c :: rest) || containsSub sub rest

/-- Python `sub in s` on strings. -/
def strContains (s sub : String) : Bool :=
  containsSub sub.data s.data

/-- One entry of the `d.Results` array returned by the Panopto GetSessions
endpoint, with the two fields the program reads. -/
structure SessionRecord where
  IosVideoUrl : String
  SessionName : String
  deriving Repr, DecidableEq

/-- The part of an HTTP response to the sessions endpoint that the program
inspects: the status code and the parsed `d.Results` array. -/
structure HttpResponse where
  status_code : Nat
  results : List SessionRecord
  deriving Repr, DecidableEq

/-- The streaming-manifest marker that `get_folder_videos` rewrites. -/
def HLS_SUFFIX : String := ".hls/master.m3u8"

/-- The direct-file replacement used by `get_folder_videos`. -/
def MP4_SUFFIX : String := ".mp4"

/-- Model of `get_folder_videos(folder_id, video_limit, client)` from
src/panopto.py lines 43-69.  The POST to the sessions endpoint is modelled by
the oracle `client_post`, mapping the folder id and video limit (the two values
interpolated into the request body) to the response.  A non-200 status yields
`none`; otherwise each result is mapped to the pair of its `IosVideoUrl` with
every occurrence of `.hls/master.m3u8` replaced by `.mp4` (Python
`str.replace`) and its `SessionName`. -/
def get_folder_videos (folder_id : String) (video_limit : Nat)
    (client_post : String → Nat → HttpResponse) :
    Option (List (String × String)) :=
  let response := client_post folder_id video_limit
  if response.status_code ≠ 200 then
    none
  else
    some (response.results.map fun video =>
      (pyReplaceStr video.IosVideoUrl HLS_SUFFIX MP4_SUFFIX, video.SessionName))

/-- Failure modes of `negotiate_saml`.  In the Python source the missing-cookie
checkpoints raise `AssertionError` and the unparsable identity-provider page
raises `TypeError`; the spec names these `AuthenticationError` and
`CredentialError` respectively, and this model keeps the spec names while
taking the control flow from the source. -/
inductive SamlError where
  | authenticationError
  | credentialError
  deriving Repr, DecidableEq

/-- The authenticated session returned by `negotiate_saml`: the cookie jar the
caller goes on to use. -/
structure Session where
  cookies : List String
  deriving Repr, DecidableEq

/-- The environment `negotiate_saml` observes over the wire:
`initial_cookies` is the cookie jar after the initial GET of the provider login
URL, `saml_response_field` is the value of the hidden `SAMLResponse` input of
the identity-provider page (`none` when the page cannot be parsed for it, the
case in which the Python subscript raises `TypeError`), and `final_cookies` is
the cookie jar after the final GET of the Panopto login page. -/
structure SamlWorld where
  initial_cookies : List String
  saml_response_field : Option String
  final_cookies : List String
  deriving Repr, DecidableEq

/-- The three cookie assertions after the initial GET in `negotiate_saml`
(src/panopto.py lines 92-94). -/
def initial_cookies_ok (w : SamlWorld) : Bool :=
  w.initial_cookies.contains "_csrf_token" &&
  w.initial_cookies.contains "bbbbbbbbbbbbbbb" &&
  w.initial_cookies.contains "JSESSIONID"

/-- Model of `negotiate_saml()` from src/panopto.py lines 72-128: check the
three session cookies after the initial GET, parse the hidden `SAMLResponse`
field out of the identity-provider response, POST it onward, and check the
`.ASPXAUTH` cookie after the final GET, returning the session on success. -/
def negotiate_saml (w : SamlWorld) : Except SamlError Session :=
  if initial_cookies_ok w then
    match w.saml_response_field with
    | none => Except.error SamlError.credentialError
    | some _ =>
      if w.final_cookies.contains ".ASPXAUTH" then
        Except.ok ⟨w.final_cookies⟩
      else
        Except.error SamlError.authenticationError
  else
    Except.error SamlError.authenticationError

/-- A Google Drive credential as `google_drive_auth` observes it: the
`valid`, `expired` and `refresh_token` attributes the code branches on, plus a
tag distinguishing concrete credential values. -/
structure Creds where
  valid : Bool
  expired : Bool
  refresh_token : Bool
  tag : String
  deriving Repr, DecidableEq

/-- Model of `google_drive_auth()` from src/panopto.py lines 131-168.
`stored` is the deserialized content of `token.pickle` (`none` when the file
does not exist; a loaded credential object is truthy), `refresh` models
`creds.refresh(Request())`, and `flow_creds` is the credential produced by the
interactive `flow.run_local_server()` grant.  The result is the returned
credential, the content of `token.pickle` afterwards, and whether the file was
written during the call. -/
def google_drive_auth (stored : Option Creds) (refresh : Creds → Creds)
    (flow_creds : Creds) : Creds × Option Creds × Bool :=
  match stored with
  | none => (flow_creds, some flow_creds, true)
  | some creds =>
    if creds.valid then
      (creds, some creds, false)
    else if creds.expired && creds.refresh_token then
      (refresh creds, some (refresh creds), true)
    else
      (flow_creds, some flow_creds, true)

/-- A folder object in Google Drive (an object with the folder MIME type):
its id, its name, and its parent if one was attached at creation. -/
structure DriveFolder where
  id : String
  name : String
  parent : Option String
  deriving Repr, DecidableEq

/-- A non-folder file object in Google Drive: id, name, the parent it was
uploaded under, and its media content as bytes. -/
structure DriveFile where
  id : String
  name : String
  parent : String
  content : List Nat
  deriving Repr, DecidableEq

/-- The Google Drive storage state the program reads and writes, with a
counter from which the service mints fresh object ids. -/
structure DriveState where
  folders : List DriveFolder
  files : List DriveFile
  nextId : Nat
  deriving Repr, DecidableEq

/-- The id Google Drive assigns to the next created object. -/
def freshId (st : DriveState) : String :=
  "id" ++ toString st.nextId

/-- Model of one execution of the body of `create_folder_if_not_exists`
(src/panopto.py lines 172-211), the un-retried attempt wrapped by the retry
decorator.  The `files().list` query filters on the folder MIME type and the
exact name only — the parent is not part of the query — and the found branch
returns the id of the first match.  The create branch issues `files().create`
with the name (and the parent when one is given) and then logs with
`folder['Name']`, which reads the module-level name `folder`; when that name is
unbound (`global_folder_bound = false`) the log line raises `NameError` after
the create request has already been issued, modelled here as a `none` result
paired with the post-create state. -/
def create_folder_if_not_exists (folder_name : String) (st : DriveState)
    (parent_folder : Option String) (global_folder_bound : Bool) :
    Option String × DriveState :=
  match st.folders.filter (fun f => f.name == folder_name) with
  | [] =>
    let new_folder : DriveFolder := ⟨freshId st, folder_name, parent_folder⟩
    let st1 : DriveState :=
      { st with folders := st.folders ++ [new_folder], nextId := st.nextId + 1 }
    if global_folder_bound then (some new_folder.id, st1) else (none, st1)
  | m :: _ => (some m.id, st)

/-- Model of one execution of the body of `check_if_file_exists`
(src/panopto.py lines 214-238): query for files named `file_name + ".mp4"`
whose parents include `parent_folder`, returning whether the result list is
non-empty. -/
def check_if_file_exists (file_name : String) (st : DriveState)
    (parent_folder : String) : Bool :=
  !(st.files.filter
      (fun f => f.parent == parent_folder && f.name == file_name ++ ".mp4")).isEmpty

/-- The two keyword arguments of the `@retry` decorator applied to
`create_folder_if_not_exists` and `check_if_file_exists`
(src/panopto.py lines 171 and 214). -/
structure RetryPolicy where
  wait_exponential_multiplier : Nat
  wait_exponential_max : Nat
  deriving Repr, DecidableEq

/-- The retry policy on `create_folder_if_not_exists` (src/panopto.py
line 171): multiplier 1000 ms, cap 10000 ms. -/
def create_folder_retry : RetryPolicy := ⟨1000, 10000⟩

/-- The retry policy on `check_if_file_exists` (src/panopto.py line 214):
multiplier 1000 ms, cap 10000 ms. -/
def check_file_retry : RetryPolicy := ⟨1000, 10000⟩

/-- Modelled from the spec: the wait in milliseconds the retry decorator
sleeps before re-running a failed attempt (the retrying library itself is not
part of this repository).  Per the spec the delay doubles from the initial
bound and is capped at the maximum bound: attempt `n` of the failing sequence
waits `min (multiplier * 2 ^ n) max`. -/
def RetryPolicy.wait (p : RetryPolicy) (n : Nat) : Nat :=
  min (p.wait_exponential_multiplier * 2 ^ n) p.wait_exponential_max

/-- Modelled from the spec: the stop condition of the retry decorator.  The
decorators in src/panopto.py set no stop argument, and the spec states the
operations retry indefinitely rather than stopping after a fixed attempt
count, so the stop condition never fires whatever the attempt number or the
elapsed delay. -/
def retry_stop (p : RetryPolicy) (attempt_number delay_ms : Nat) : Bool :=
  false

/-- Modelled from the spec: the retry loop around a fallible operation.
`op n` is the outcome of attempt `n` of the injected stub (`true` = success),
`fuel` bounds the observation window (the loop itself has no bound: it only
ends on success or when `retry_stop` fires, which it never does), and the
result is the index of the first successful attempt when it occurs inside the
window. -/
def retry_run (p : RetryPolicy) (op : Nat → Bool) : Nat → Nat → Option Nat
  | 0, _ => none
  | fuel + 1, n =>
    if op n then some n
    else if retry_stop p n (p.wait n) then none
    else retry_run p op fuel (n + 1)

/-- One folder record of the Panopto folders listing (src/panopto.py
lines 251-252), with the three fields the driver reads. -/
structure PanoptoFolder where
  Id : String
  Name : String
  SessionCount : Nat
  deriving Repr, DecidableEq

/-- The module-level subset-filter flag (src/panopto.py line 16). -/
def ONLY_SAVE_CSE_VIDEOS : Bool := true

/-- The module-level destination folder name (src/panopto.py line 19). -/
def GOOGLE_DRIVE_FOLDER_NAME : String := "Panopto Videos"

/-- The folder inclusion filter of the driver loop (src/panopto.py line 254):
`folder['SessionCount'] > 0 and (not ONLY_SAVE_CSE_VIDEOS or 'CSE' in
folder['Name'])`, with the flag as a parameter. -/
def folder_qualifies (only_cse : Bool) (f : PanoptoFolder) : Bool :=
  decide (f.SessionCount > 0) && (!only_cse || strContains f.Name "CSE")

/-- Model of one iteration of the per-video loop (src/panopto.py
lines 265-293).  `net` maps a URL to the bytes `requests.get` downloads for
it.  If `check_if_file_exists` reports the video name present under the folder
the iteration only logs; otherwise it downloads the payload and issues
`files().create` for an item named `video_name + ".mp4"` with the folder id as
parent and the downloaded bytes as media body.  Returns the Drive state
afterwards and whether an upload happened. -/
def process_video (net : String → List Nat) (st : DriveState)
    (folder_id video_url video_name : String) : DriveState × Bool :=
  if check_if_file_exists video_name st folder_id then
    (st, false)
  else
    ({ st with
        files := st.files ++
          [⟨freshId st, video_name ++ ".mp4", folder_id, net video_url⟩],
        nextId := st.nextId + 1 }, true)

/-- The per-video loop over a folder listing, threading the Drive state and
collecting the display names of the videos that were uploaded, in order. -/
def process_videos (net : String → List Nat) (folder_id : String) :
    DriveState → List (String × String) → DriveState × List String
  | st, [] => (st, [])
  | st, (u, n) :: rest =>
    let r := process_video net st folder_id u n
    let r2 := process_videos net folder_id r.1 rest
    (r2.1, (if r.2 then [n] else []) ++ r2.2)

/-- What the driver loop did with one enumerated folder: filtered it out,
skipped it because its video listing failed, or processed it (with the
destination folder id it resolved and the names it uploaded). -/
inductive FolderOutcome where
  | filteredOut
  | listingFailed
  | processed (folder_id : String) (uploaded : List String)
  deriving Repr, DecidableEq

/-- Model of the driver's folder loop (src/panopto.py lines 253-293).  For
each enumerated folder: apply the inclusion filter; fetch its video listing
(`get_folder_videos` with limit 50) and on `none` skip to the next folder;
otherwise resolve the destination folder via `create_folder_if_not_exists`
(inside the loop the module-level name `folder` is bound, so the call is
modelled with `global_folder_bound = true`; the `none` branch below is
unreachable) and run the per-video loop.  Returns the final Drive state and
one outcome per folder, in order. -/
def sync_folders (net : String → List Nat)
    (listing : String → Nat → HttpResponse) (only_cse : Bool)
    (panopto_folder_id : String) :
    List PanoptoFolder → DriveState → DriveState × List FolderOutcome
  | [], st => (st, [])
  | f :: rest, st =>
    if folder_qualifies only_cse f then
      match get_folder_videos f.Id 50 listing with
      | none =>
        let r := sync_folders net listing only_cse panopto_folder_id rest st
        (r.1, FolderOutcome.listingFailed :: r.2)
      | some videos =>
        match create_folder_if_not_exists f.Name st (some panopto_folder_id) true with
        | (some fid, st1) =>
          let rv := process_videos net fid st1 videos
          let r := sync_folders net listing only_cse panopto_folder_id rest rv.1
          (r.1, FolderOutcome.processed fid rv.2 :: r.2)
        | (none, st1) =>
          let r := sync_folders net listing only_cse panopto_folder_id rest st1
          (r.1, FolderOutcome.listingFailed :: r.2)
    else
      let r := sync_folders net listing only_cse panopto_folder_id rest st
      (r.1, FolderOutcome.filteredOut :: r.2)

/-- A network stub that returns an empty payload for every URL. -/
def no_net : String → List Nat := fun _ => []

/-- A sessions-endpoint stub that answers 200 with an empty result list. -/
def ok_listing : String → Nat → HttpResponse := fun _ _ => ⟨200, []⟩

/-- A sessions-endpoint stub that answers 404 for every folder. -/
def fail_listing : String → Nat → HttpResponse := fun _ _ => ⟨404, []⟩

/-- A sessions-endpoint stub answering 200 with one record whose manifest URL
contains the streaming marker twice. -/
def double_marker_listing : String → Nat → HttpResponse :=
  fun _ _ => ⟨200, [⟨"a.hls/master.m3u8b.hls/master.m3u8", "Lecture 1"⟩]⟩

/-- A sessions-endpoint stub answering 200 with one well-formed record whose
manifest URL carries the streaming marker only as its suffix. -/
def suffix_marker_listing : String → Nat → HttpResponse :=
  fun _ _ => ⟨200, [⟨"https://h/v.hls/master.m3u8", "Lecture 2"⟩]⟩

/-- Replacing inside the empty list yields the empty list for any fuel. -/
theorem pyReplaceFuel_nil (old new : List Char) (fuel : Nat) :
    pyReplaceFuel old new fuel [] = [] := by
  cases fuel <;> rfl

/-- Every character list is a Boolean prefix of itself. -/
theorem isPrefixOf_self (l : List Char) : l.isPrefixOf l = true := by
  induction l with
  | nil => rfl
  | cons c cs ih => simp [List.isPrefixOf, ih]

/-- When the pattern `old` occurs in `p ++ old` only as the final suffix
(no occurrence starts before position `p.length`), fuelled replacement with
enough fuel rewrites exactly that suffix and leaves `p` unchanged. -/
theorem pyReplaceFuel_suffix (old new : List Char) (hne : old ≠ []) :
    ∀ (p : List Char) (fuel : Nat),
      p.length + old.length ≤ fuel →
      (∀ i, i < p.length → ¬ old.isPrefixOf ((p ++ old).drop i) = true) →
      pyReplaceFuel old new fuel (p ++ old) = p ++ new := by
  intro p
  induction p with
  | nil =>
    intro fuel hfuel _
    obtain ⟨o, os, rfl⟩ : ∃ o os, old = o :: os := by
      cases old with
      | nil => exact absurd rfl hne
      | cons o os => exact ⟨o, os, rfl⟩
    cases fuel with
    | zero => simp at hfuel
    | succ fu =>
      show pyReplaceFuel (o :: os) new (fu + 1) ([] ++ (o :: os)) = [] ++ new
      simp only [List.nil_append]
      unfold pyReplaceFuel
      rw [if_pos (isPrefixOf_self (o :: os))]
      simp [List.drop_length, pyReplaceFuel_nil]
  | cons c p' ih =>
    intro fuel hfuel hocc
    cases fuel with
    | zero => simp at hfuel
    | succ fu =>
      have hnot : ¬ old.isPrefixOf (c :: (p' ++ old)) = true := by
        have h0 := hocc 0 (by simp)
        simpa using h0
      show pyReplaceFuel old new (fu + 1) (c :: (p' ++ old)) = c :: (p' ++ new)
      unfold pyReplaceFuel
      rw [if_neg hnot]
      have hfu : p'.length + old.length ≤ fu := by
        simp [List.length_cons] at hfuel
        omega
      have hocc' : ∀ i, i < p'.length →
          ¬ old.isPrefixOf ((p' ++ old).drop i) = true := by
        intro i hi
        have h := hocc (i + 1) (by simp; omega)
        simpa [List.drop_succ_cons] using h
      rw [ih fu hfu hocc']

/-- Suffix-only rewriting for `pyReplace`: when the pattern occurs only as
the final suffix, replacement rewrites that suffix and nothing else. -/
theorem pyReplace_suffix (old new p : List Char) (hne : old ≠ [])
    (hocc : ∀ i, i < p.length → ¬ old.isPrefixOf ((p ++ old).drop i) = true) :
    pyReplace old new (p ++ old) = p ++ new := by
  unfold pyReplace
  exact pyReplaceFuel_suffix old new hne p (p ++ old).length (by simp) hocc

/-- `get_folder_videos` yields `none` exactly on a non-200 status. -/
theorem get_folder_videos_none_iff (folder_id : String) (lim : Nat)
    (cp : String → Nat → HttpResponse) :
    get_folder_videos folder_id lim cp = none ↔
      (cp folder_id lim).status_code ≠ 200 := by
  unfold get_folder_videos
  by_cases h : (cp folder_id lim).status_code = 200 <;> simp [h]

/-- On a 200 status `get_folder_videos` maps each result to its rewritten
URL paired with its session name. -/
theorem get_folder_videos_200 (folder_id : String) (lim : Nat)
    (cp : String → Nat → HttpResponse)
    (h : (cp folder_id lim).status_code = 200) :
    get_folder_videos folder_id lim cp =
      some ((cp folder_id lim).results.map fun v =>
        (pyReplaceStr v.IosVideoUrl HLS_SUFFIX MP4_SUFFIX, v.SessionName)) := by
  unfold get_folder_videos
  simp [h]

/-- Behaviour of one attempt of `create_folder_if_not_exists` when the name
query returns no match: the folder is created, and the id is returned exactly
when the module-level name `folder` is bound. -/
theorem create_folder_absent (folder_name : String) (st : DriveState)
    (parent : Option String) (b : Bool)
    (h : st.folders.filter (fun f => f.name == folder_name) = []) :
    create_folder_if_not_exists folder_name st parent b =
      (if b then some (freshId st) else none,
       { st with folders := st.folders ++ [⟨freshId st, folder_name, parent⟩],
                 nextId := st.nextId + 1 }) := by
  unfold create_folder_if_not_exists
  rw [h]
  cases b <;> simp

/-- Behaviour of one attempt of `create_folder_if_not_exists` when the name
query returns a match: the first matching id is returned and the state is
untouched. -/
theorem create_folder_found (folder_name : String) (st : DriveState)
    (parent : Option String) (b : Bool) (m : DriveFolder) (ms : List DriveFolder)
    (h : st.folders.filter (fun f => f.name == folder_name) = m :: ms) :
    create_folder_if_not_exists folder_name st parent b = (some m.id, st) := by
  unfold create_folder_if_not_exists
  rw [h]

/-- A state none of whose folders carries the queried name filters to the
empty match list. -/
theorem filter_name_eq_nil (st : DriveState) (folder_name : String)
    (h : ∀ f, f ∈ st.folders → f.name ≠ folder_name) :
    st.folders.filter (fun f => f.name == folder_name) = [] := by
  rw [List.filter_eq_nil_iff]
  intro f hf
  simp [h f hf]

/-- The exponential wait is non-decreasing in the attempt number. -/
theorem wait_mono (p : RetryPolicy) (n : Nat) : p.wait n ≤ p.wait (n + 1) := by
  unfold RetryPolicy.wait
  have h : p.wait_exponential_multiplier * 2 ^ n ≤
      p.wait_exponential_multiplier * 2 ^ (n + 1) :=
    Nat.mul_le_mul_left _ (Nat.pow_le_pow_right (by norm_num) (Nat.le_succ n))
  generalize p.wait_exponential_multiplier * 2 ^ n = a at h
  generalize p.wait_exponential_multiplier * 2 ^ (n + 1) = b at h
  omega

/-- The exponential wait never exceeds the configured cap. -/
theorem wait_le_max (p : RetryPolicy) (n : Nat) :
    p.wait n ≤ p.wait_exponential_max := by
  unfold RetryPolicy.wait
  generalize p.wait_exponential_multiplier * 2 ^ n = a
  omega

/-- Each successive wait is the double of the previous one, capped. -/
theorem wait_double (p : RetryPolicy) (n : Nat) :
    p.wait (n + 1) = min (2 * p.wait n) p.wait_exponential_max := by
  unfold RetryPolicy.wait
  rw [pow_succ]
  have h : p.wait_exponential_multiplier * (2 ^ n * 2) =
      2 * (p.wait_exponential_multiplier * 2 ^ n) := by ring
  rw [h]
  generalize p.wait_exponential_multiplier * 2 ^ n = a
  omega

/-- The retry loop reaches the first successful attempt however many failures
precede it: with no stop condition, `k` consecutive failures never exhaust the
policy. -/
theorem retry_run_succeeds (p : RetryPolicy) (op : Nat → Bool) :
    ∀ (k start : Nat), (∀ i, i < k → op (start + i) = false) →
      op (start + k) = true →
      retry_run p op (k + 1) start = some (start + k) := by
  intro k
  induction k with
  | zero =>
    intro start _ hk
    unfold retry_run
    simp only [Nat.add_zero] at hk
    simp [hk]
  | succ k ih =>
    intro start hlt hk
    have h0 : op start = false := by simpa using hlt 0 (Nat.succ_pos k)
    show retry_run p op (k + 1 + 1) start = some (start + (k + 1))
    unfold retry_run
    rw [h0]
    simp only [Bool.false_eq_true, if_false, retry_stop]
    have harg : ∀ i, i < k → op (start + 1 + i) = false := by
      intro i hi
      have h := hlt (i + 1) (Nat.succ_lt_succ hi)
      have he : start + (i + 1) = start + 1 + i := by omega
      rwa [he] at h
    have hk' : op (start + 1 + k) = true := by
      have he : start + (k + 1) = start + 1 + k := by omega
      rwa [he] at hk
    have := ih (start + 1) harg hk'
    rw [this]
    congr 1
    omega

/-- C1 counterexample: the existence query of `create_folder_if_not_exists`
is not scoped to the given parent.  With destination storage holding exactly
one folder, named `N` under parent `A`, a call asking for `N` under parent `B`
returns the id of the folder under `A` and creates nothing — the final state
still has no folder whose parent is `B`, contradicting the claim that with no
match under the given parent a folder is created there and its new id
returned. -/
theorem claim_C1_counterexample :
    create_folder_if_not_exists "N" ⟨[⟨"f1", "N", some "A"⟩], [], 0⟩
        (some "B") true =
      (some "f1", ⟨[⟨"f1", "N", some "A"⟩], [], 0⟩) ∧
    ([(⟨"f1", "N", some "A"⟩ : DriveFolder)].all
        fun f => f.parent != some "B") = true := by
  exact ⟨rfl, rfl⟩

/-- C1 (amended): each call of `create_folder_if_not_exists` (with the
module-level name `folder` bound) queries destination storage for a folder
with the exact name only, not scoped to the parent; if any folder of that name
exists the call returns the first match's id and changes nothing, and
otherwise it creates a folder with that name, attaching the given parent, and
returns the new folder's id. -/
theorem claim_C1_thm (folder_name : String) (parent : Option String)
    (st : DriveState) :
    ∃ fid st1,
      create_folder_if_not_exists folder_name st parent true = (some fid, st1) ∧
      (∃ f, f ∈ st1.folders ∧ f.id = fid ∧ f.name = folder_name) ∧
      ((∃ f, f ∈ st.folders ∧ f.name = folder_name) → st1 = st) ∧
      ((∀ f, f ∈ st.folders → f.name ≠ folder_name) →
        st1.folders = st.folders ++ [⟨fid, folder_name, parent⟩]) := by
  cases hfil : st.folders.filter (fun f => f.name == folder_name) with
  | nil =>
    refine ⟨freshId st,
      { st with folders := st.folders ++ [⟨freshId st, folder_name, parent⟩],
                nextId := st.nextId + 1 }, ?_, ?_, ?_, ?_⟩
    · rw [create_folder_absent _ _ _ _ hfil]
      simp
    · exact ⟨⟨freshId st, folder_name, parent⟩, by simp, rfl, rfl⟩
    · intro habs
      exfalso
      obtain ⟨f, hf, hname⟩ := habs
      have := List.filter_eq_nil_iff.mp hfil f hf
      simp [hname] at this
    · intro _
      rfl
  | cons m ms =>
    have hm : m ∈ st.folders.filter (fun f => f.name == folder_name) := by
      rw [hfil]
      exact List.mem_cons_self _ _
    have hmem := List.mem_filter.mp hm
    have hname : m.name = folder_name := by simpa [beq_iff_eq] using hmem.2
    refine ⟨m.id, st, create_folder_found _ _ _ _ m ms hfil,
      ⟨m, hmem.1, rfl, hname⟩, fun _ => rfl, ?_⟩
    intro habs
    exact absurd hname (habs m hmem.1)

/-- C1 witness: on empty destination storage, the call for the top-level
folder name creates exactly that folder and returns its id. -/
theorem claim_C1_witness :
    ∃ fid st1,
      create_folder_if_not_exists GOOGLE_DRIVE_FOLDER_NAME ⟨[], [], 0⟩
          none true = (some fid, st1) ∧
      st1.folders = [⟨fid, GOOGLE_DRIVE_FOLDER_NAME, none⟩] := by
  obtain ⟨fid, st1, h1, _, _, h4⟩ :=
    claim_C1_thm GOOGLE_DRIVE_FOLDER_NAME none ⟨[], [], 0⟩
  exact ⟨fid, st1, h1, by simpa using h4 (by simp)⟩

/-- C2: with no folder of the requested name present initially (the state in
which the get-or-create scenario creates at all) and no concurrent writer —
the model is sequential — two successive calls of
`create_folder_if_not_exists` with the same name and parent return the same
folder id, the second call leaves the state of the first untouched, and
exactly one folder is created across the two calls. -/
theorem claim_C2_thm (folder_name : String) (parent : Option String)
    (st : DriveState)
    (h : ∀ f, f ∈ st.folders → f.name ≠ folder_name) :
    ∃ fid st1,
      create_folder_if_not_exists folder_name st parent true = (some fid, st1) ∧
      create_folder_if_not_exists folder_name st1 parent true = (some fid, st1) ∧
      st1.folders.length = st.folders.length + 1 := by
  have hfil := filter_name_eq_nil st folder_name h
  refine ⟨freshId st,
    { st with folders := st.folders ++ [⟨freshId st, folder_name, parent⟩],
              nextId := st.nextId + 1 }, ?_, ?_, ?_⟩
  · rw [create_folder_absent _ _ _ _ hfil]
    simp
  · have hfil2 :
        ({ st with
            folders := st.folders ++ [⟨freshId st, folder_name, parent⟩],
            nextId := st.nextId + 1 } : DriveState).folders.filter
          (fun f => f.name == folder_name) =
          [⟨freshId st, folder_name, parent⟩] := by
      simp [List.filter_append, hfil]
    exact create_folder_found _ _ _ _ _ _ hfil2
  · simp

/-- C2 witness: both calls on an initially empty destination return the same
id and produce exactly one folder. -/
theorem claim_C2_witness :
    ∃ fid st1,
      create_folder_if_not_exists GOOGLE_DRIVE_FOLDER_NAME ⟨[], [], 0⟩
          none true = (some fid, st1) ∧
      create_folder_if_not_exists GOOGLE_DRIVE_FOLDER_NAME st1
          none true = (some fid, st1) ∧
      st1.folders.length = (⟨[], [], 0⟩ : DriveState).folders.length + 1 :=
  claim_C2_thm GOOGLE_DRIVE_FOLDER_NAME none ⟨[], [], 0⟩ (by simp)

/-- C10: when the existence query returns no match and the module-level name
`folder` is unbound — the situation of the program's first call, which creates
the top-level destination folder — a single un-retried execution of
`create_folder_if_not_exists` issues the create request (the new folder, with
the given parent attached, is in the final state) and then raises `NameError`
at the success log, modelled by the `none` first component: the execution does
not return the new folder's id. -/
theorem claim_C10_thm (folder_name : String) (parent : Option String)
    (st : DriveState)
    (h : ∀ f, f ∈ st.folders → f.name ≠ folder_name) :
    create_folder_if_not_exists folder_name st parent false =
      (none,
       { st with folders := st.folders ++ [⟨freshId st, folder_name, parent⟩],
                 nextId := st.nextId + 1 }) := by
  rw [create_folder_absent _ _ _ _ (filter_name_eq_nil st folder_name h)]
  simp

/-- C10 witness: the program's first call on empty storage creates the
top-level folder but produces no id. -/
theorem claim_C10_witness :
    create_folder_if_not_exists GOOGLE_DRIVE_FOLDER_NAME ⟨[], [], 0⟩
        none false =
      (none, ⟨[⟨freshId ⟨[], [], 0⟩, GOOGLE_DRIVE_FOLDER_NAME, none⟩], [], 1⟩) := by
  simpa using claim_C10_thm GOOGLE_DRIVE_FOLDER_NAME none ⟨[], [], 0⟩ (by simp)

/-- C3: in the per-video loop, a video whose name the existence check reports
present under the destination folder causes no download and no upload (the
state is unchanged and the outcome is independent of the network), while an
absent video is downloaded and uploaded as an item named
`video name + ".mp4"` under the folder id with the fetched payload as
content.  Consequently, over a listing of three videos A, B, C of which A and
B are already present and C is not, the run uploads only C. -/
theorem claim_C3_thm (net : String → List Nat) (st : DriveState)
    (fid : String) :
    (∀ u n, check_if_file_exists n st fid = true →
      process_video net st fid u n = (st, false)) ∧
    (∀ u n, check_if_file_exists n st fid = false →
      process_video net st fid u n =
        ({ st with
            files := st.files ++ [⟨freshId st, n ++ ".mp4", fid, net u⟩],
            nextId := st.nextId + 1 }, true)) ∧
    (∀ ua na ub nb uc nc,
      check_if_file_exists na st fid = true →
      check_if_file_exists nb st fid = true →
      check_if_file_exists nc st fid = false →
      (process_videos net fid st [(ua, na), (ub, nb), (uc, nc)]).2 = [nc]) := by
  refine ⟨?_, ?_, ?_⟩
  · intro u n h
    simp [process_video, h]
  · intro u n h
    simp [process_video, h]
  · intro ua na ub nb uc nc ha hb hc
    simp [process_videos, process_video, ha, hb, hc]

/-- C3 witness: with items `A.mp4` and `B.mp4` already under the destination
folder, processing the listing {A, B, C} uploads only C. -/
theorem claim_C3_witness :
    (process_videos no_net "F"
        ⟨[], [⟨"fa", "A.mp4", "F", []⟩, ⟨"fb", "B.mp4", "F", []⟩], 2⟩
        [("uA", "A"), ("uB", "B"), ("uC", "C")]).2 = ["C"] :=
  (claim_C3_thm no_net
      ⟨[], [⟨"fa", "A.mp4", "F", []⟩, ⟨"fb", "B.mp4", "F", []⟩], 2⟩
      "F").2.2 "uA" "A" "uB" "B" "uC" "C" (by decide) (by decide) (by decide)

/-- C4: `get_folder_videos` returns `none` exactly when the sessions endpoint
answers a non-200 status, and a list of rewritten-URL and name pairs on a 200
status; and the driver loop reacts to a `none` listing for a qualifying folder
by recording a skip for that folder, leaving storage untouched, and processing
the remaining folders exactly as it would without that folder. -/
theorem claim_C4_thm (listing : String → Nat → HttpResponse)
    (net : String → List Nat) (only_cse : Bool) (pfid : String)
    (folder_id : String) (lim : Nat)
    (f : PanoptoFolder) (rest : List PanoptoFolder) (st : DriveState) :
    (get_folder_videos folder_id lim listing = none ↔
      (listing folder_id lim).status_code ≠ 200) ∧
    ((listing folder_id lim).status_code = 200 →
      get_folder_videos folder_id lim listing =
        some ((listing folder_id lim).results.map fun v =>
          (pyReplaceStr v.IosVideoUrl HLS_SUFFIX MP4_SUFFIX, v.SessionName))) ∧
    (folder_qualifies only_cse f = true →
      (listing f.Id 50).status_code ≠ 200 →
      sync_folders net listing only_cse pfid (f :: rest) st =
        ((sync_folders net listing only_cse pfid rest st).1,
         FolderOutcome.listingFailed ::
           (sync_folders net listing only_cse pfid rest st).2)) := by
  refine ⟨get_folder_videos_none_iff _ _ _, get_folder_videos_200 _ _ _, ?_⟩
  intro hq hs
  have hnone : get_folder_videos f.Id 50 listing = none :=
    (get_folder_videos_none_iff _ _ _).mpr hs
  simp [sync_folders, hq, hnone]

/-- C4 witness: a qualifying folder whose listing call answers 404 is skipped
and the run continues. -/
theorem claim_C4_witness :
    sync_folders no_net fail_listing true "root"
        [⟨"fid1", "CSE 142", 1⟩] ⟨[], [], 0⟩ =
      ((sync_folders no_net fail_listing true "root" [] ⟨[], [], 0⟩).1,
       FolderOutcome.listingFailed ::
         (sync_folders no_net fail_listing true "root" [] ⟨[], [], 0⟩).2) :=
  (claim_C4_thm fail_listing no_net true "root" "x" 50
      ⟨"fid1", "CSE 142", 1⟩ [] ⟨[], [], 0⟩).2.2 (by decide) (by decide)

/-- C7: the driver records a filtered-out outcome for an enumerated folder
exactly when the folder does not satisfy the inclusion formula — a strictly
positive `SessionCount` and (the subset flag off, or the name containing the
`CSE` marker); and on the concrete examples, with the flag as configured in
the source, `CSE 143 Au21` with count 5 qualifies, `MATH 124` with count 5
does not, `CSE 142` with count 0 does not, and in general a zero count
excludes a folder regardless of its name. -/
theorem claim_C7_thm (net : String → List Nat)
    (listing : String → Nat → HttpResponse) (only_cse : Bool) (pfid : String)
    (f : PanoptoFolder) (rest : List PanoptoFolder) (st : DriveState) :
    ((sync_folders net listing only_cse pfid (f :: rest) st).2.head? =
        some FolderOutcome.filteredOut ↔
      ¬ (f.SessionCount > 0 ∧
          (only_cse = false ∨ strContains f.Name "CSE" = true))) ∧
    folder_qualifies ONLY_SAVE_CSE_VIDEOS ⟨"id1", "CSE 143 Au21", 5⟩ = true ∧
    folder_qualifies ONLY_SAVE_CSE_VIDEOS ⟨"id2", "MATH 124", 5⟩ = false ∧
    folder_qualifies ONLY_SAVE_CSE_VIDEOS ⟨"id3", "CSE 142", 0⟩ = false ∧
    (∀ b i n, folder_qualifies b ⟨i, n, 0⟩ = false) := by
  have hiff : folder_qualifies only_cse f = true ↔
      (f.SessionCount > 0 ∧
        (only_cse = false ∨ strContains f.Name "CSE" = true)) := by
    simp [folder_qualifies, Bool.and_eq_true, Bool.or_eq_true,
      Bool.not_eq_true']
  refine ⟨?_, by decide, by decide, by decide, ?_⟩
  · cases hq : folder_qualifies only_cse f with
    | false =>
      have hr : ¬ (f.SessionCount > 0 ∧
          (only_cse = false ∨ strContains f.Name "CSE" = true)) := by
        intro hc
        have := hiff.mpr hc
        rw [hq] at this
        exact Bool.false_ne_true this
      simp [sync_folders, hq, hr]
    | true =>
      have hr := hiff.mp hq
      rcases hg : get_folder_videos f.Id 50 listing with _ | videos
      · simp [sync_folders, hq, hg, hr]
      · rcases hc : create_folder_if_not_exists f.Name st (some pfid) true with
          ⟨_ | fid, st1⟩
        · simp [sync_folders, hq, hg, hc, hr]
        · simp [sync_folders, hq, hg, hc, hr]
  · intro b i n
    simp [folder_qualifies]

/-- C7 witness: `MATH 124` with count 5 is recorded as filtered out under the
configured flag, and `CSE 142` with count 0 does not qualify. -/
theorem claim_C7_witness :
    (sync_folders no_net ok_listing true "root"
        [⟨"id2", "MATH 124", 5⟩] ⟨[], [], 0⟩).2.head? =
      some FolderOutcome.filteredOut ∧
    folder_qualifies ONLY_SAVE_CSE_VIDEOS ⟨"id3", "CSE 142", 0⟩ = false := by
  have h := claim_C7_thm no_net ok_listing true "root"
    ⟨"id2", "MATH 124", 5⟩ [] ⟨[], [], 0⟩
  exact ⟨h.1.mpr (by decide), h.2.2.2.1⟩

/-- C5: for the retry policies wrapping both reconciler operations, the wait
starts at the initial bound of 1000 ms, is non-decreasing, doubles up to the
10000 ms cap, never exceeds the cap, and no fixed number of failed attempts
stops the loop: the stop condition never fires, and an operation that fails
any number of times before its first success is still retried until that
success is reached. -/
theorem claim_C5_thm (p : RetryPolicy)
    (hp : p = create_folder_retry ∨ p = check_file_retry) :
    p.wait 0 = 1000 ∧
    (∀ n, p.wait n ≤ p.wait (n + 1)) ∧
    (∀ n, p.wait (n + 1) = min (2 * p.wait n) 10000) ∧
    (∀ n, p.wait n ≤ 10000) ∧
    (∀ n d, retry_stop p n d = false) ∧
    (∀ op k, (∀ i, i < k → op i = false) → op k = true →
      retry_run p op (k + 1) 0 = some k) := by
  have hmax : p.wait_exponential_max = 10000 := by
    rcases hp with rfl | rfl <;> rfl
  refine ⟨?_, wait_mono p, ?_, ?_, fun n d => rfl, ?_⟩
  · rcases hp with rfl | rfl <;> rfl
  · intro n
    rw [wait_double p n, hmax]
  · intro n
    have h := wait_le_max p n
    omega
  · intro op k h1 h2
    have h := retry_run_succeeds p op k 0
      (fun i hi => by simpa using h1 i hi) (by simpa using h2)
    simpa using h

/-- C5 witness: under the policy of the folder reconciler, the initial wait
is 1000 ms and a stub failing on attempts 0 and 1 still reaches its first
success on attempt 2. -/
theorem claim_C5_witness :
    create_folder_retry.wait 0 = 1000 ∧
    retry_run create_folder_retry (fun i => decide (2 ≤ i)) 3 0 = some 2 := by
  have h := claim_C5_thm create_folder_retry (Or.inl rfl)
  refine ⟨h.1, ?_⟩
  have h2 := h.2.2.2.2.2 (fun i => decide (2 ≤ i)) 2 (by decide) (by decide)
  simpa using h2

/-- C6 counterexample: the derived URL is produced by Python `str.replace`,
which rewrites every occurrence of the marker, not only the suffix.  For a
record whose manifest URL contains `.hls/master.m3u8` both in the middle and
as the suffix, the derived URL rewrites both occurrences, whereas rewriting
the suffix with no other part of the URL altered would give
`a.hls/master.m3u8b.mp4`. -/
theorem claim_C6_counterexample :
    get_folder_videos "f" 50 double_marker_listing =
      some [("a.mp4b.mp4", "Lecture 1")] ∧
    ("a.mp4b.mp4" : String) ≠ "a.hls/master.m3u8b.mp4" := by
  exact ⟨by decide, by decide⟩

/-- C6 (amended): the derived playable URL replaces every occurrence of the
streaming marker `.hls/master.m3u8` in the manifest URL with `.mp4`; in
particular, when the marker occurs in the URL only as its suffix, the result
is the URL with exactly that suffix rewritten and no other part altered, and
the paired display name is the record's session name. -/
theorem claim_C6_thm (listing : String → Nat → HttpResponse)
    (folder_id : String) (lim : Nat) (recs : List SessionRecord)
    (h : listing folder_id lim = ⟨200, recs⟩)
    (p : List Char)
    (hocc : ∀ i, i < p.length →
      ¬ HLS_SUFFIX.data.isPrefixOf ((p ++ HLS_SUFFIX.data).drop i) = true) :
    get_folder_videos folder_id lim listing =
      some (recs.map fun v =>
        (pyReplaceStr v.IosVideoUrl HLS_SUFFIX MP4_SUFFIX, v.SessionName)) ∧
    pyReplaceStr ⟨p ++ HLS_SUFFIX.data⟩ HLS_SUFFIX MP4_SUFFIX =
      ⟨p ++ MP4_SUFFIX.data⟩ := by
  constructor
  · have h200 : (listing folder_id lim).status_code = 200 := by rw [h]
    rw [get_folder_videos_200 _ _ _ h200, h]
  · unfold pyReplaceStr
    congr 1
    exact pyReplace_suffix _ _ p (by decide) hocc

/-- C6 witness: a listing whose record's URL carries the marker only as its
suffix is mapped to that URL with the suffix rewritten to `.mp4`, paired with
the session name. -/
theorem claim_C6_witness :
    get_folder_videos "f1" 50 suffix_marker_listing =
      some ([(⟨"https://h/v.hls/master.m3u8", "Lecture 2"⟩ : SessionRecord)].map
        fun v => (pyReplaceStr v.IosVideoUrl HLS_SUFFIX MP4_SUFFIX, v.SessionName)) ∧
    pyReplaceStr ⟨"https://h/v".data ++ HLS_SUFFIX.data⟩ HLS_SUFFIX MP4_SUFFIX =
      ⟨"https://h/v".data ++ MP4_SUFFIX.data⟩ :=
  claim_C6_thm suffix_marker_listing "f1" 50
    [⟨"https://h/v.hls/master.m3u8", "Lecture 2"⟩] rfl
    "https://h/v".data (by decide)

/-- C8 counterexample: when a valid credential is loaded from the persisted
blob, `google_drive_auth` returns it without writing `token.pickle` — the
write flag of the call is `false`, contradicting the claim that the blob is
written before returning in this case too. -/
theorem claim_C8_counterexample :
    google_drive_auth (some ⟨true, false, true, "stored"⟩) id
        ⟨true, false, true, "flow"⟩ =
      (⟨true, false, true, "stored"⟩, some ⟨true, false, true, "stored"⟩,
       false) := by
  rfl

/-- C8 (amended): `google_drive_auth` writes the persisted blob before
returning exactly when the credential was newly acquired or refreshed — that
is, when no blob existed or the loaded credential was invalid — and whenever
it writes, the blob holds the returned credential; a valid credential loaded
from the blob is returned as is, with the blob unchanged and no write. -/
theorem claim_C8_thm (stored : Option Creds) (refresh : Creds → Creds)
    (flow_creds : Creds) :
    ((google_drive_auth stored refresh flow_creds).2.2 = true ↔
      stored = none ∨ ∃ c, stored = some c ∧ c.valid = false) ∧
    ((google_drive_auth stored refresh flow_creds).2.2 = true →
      (google_drive_auth stored refresh flow_creds).2.1 =
        some (google_drive_auth stored refresh flow_creds).1) ∧
    (∀ c, stored = some c → c.valid = true →
      google_drive_auth stored refresh flow_creds = (c, some c, false)) := by
  cases stored with
  | none =>
    refine ⟨by simp [google_drive_auth], by simp [google_drive_auth], ?_⟩
    intro c hc
    exact absurd hc (by simp)
  | some c =>
    by_cases hv : c.valid = true
    · refine ⟨by simp [google_drive_auth, hv], by simp [google_drive_auth, hv], ?_⟩
      intro c' hc' _
      injection hc' with h
      subst h
      simp [google_drive_auth, hv]
    · have hv' : c.valid = false := by
        cases h : c.valid
        · rfl
        · exact absurd h hv
      refine ⟨?_, ?_, ?_⟩
      · by_cases hr : (c.expired && c.refresh_token) = true <;>
          simp [google_drive_auth, hv', hr]
      · by_cases hr : (c.expired && c.refresh_token) = true <;>
          simp [google_drive_auth, hv', hr]
      · intro c' hc' hvt
        injection hc' with h
        subst h
        rw [hvt] at hv'
        exact absurd hv' (by simp)

/-- C8 witness: with no persisted blob, the interactively acquired credential
is persisted before returning. -/
theorem claim_C8_witness :
    ((google_drive_auth none id ⟨true, false, false, "flow"⟩).2.2 = true ↔
      (none : Option Creds) = none ∨
        ∃ c, (none : Option Creds) = some c ∧ c.valid = false) ∧
    ((google_drive_auth none id ⟨true, false, false, "flow"⟩).2.2 = true →
      (google_drive_auth none id ⟨true, false, false, "flow"⟩).2.1 =
        some (google_drive_auth none id ⟨true, false, false, "flow"⟩).1) :=
  ⟨(claim_C8_thm none id ⟨true, false, false, "flow"⟩).1,
   (claim_C8_thm none id ⟨true, false, false, "flow"⟩).2.1⟩

/-- C9: `negotiate_saml` fails with the authentication error when any of the
three session cookies is missing after the initial GET, fails with the
credential error when the cookies are present but the identity-provider
response carries no hidden assertion-token field, fails with the
authentication error when the provider-specific cookie is missing after the
final GET, and otherwise returns the authenticated session carrying the final
cookie jar. -/
theorem claim_C9_thm (w : SamlWorld) :
    (initial_cookies_ok w = false →
      negotiate_saml w = Except.error SamlError.authenticationError) ∧
    (initial_cookies_ok w = true → w.saml_response_field = none →
      negotiate_saml w = Except.error SamlError.credentialError) ∧
    (initial_cookies_ok w = true → w.saml_response_field.isSome = true →
      w.final_cookies.contains ".ASPXAUTH" = false →
      negotiate_saml w = Except.error SamlError.authenticationError) ∧
    (initial_cookies_ok w = true → w.saml_response_field.isSome = true →
      w.final_cookies.contains ".ASPXAUTH" = true →
      negotiate_saml w = Except.ok ⟨w.final_cookies⟩) := by
  refine ⟨?_, ?_, ?_, ?_⟩
  · intro h
    simp [negotiate_saml, h]
  · intro h hn
    simp [negotiate_saml, h, hn]
  · intro h hs hf
    rcases ho : w.saml_response_field with _ | v
    · rw [ho] at hs
      simp at hs
    · simp [negotiate_saml, h, ho, hf]
      simpa using hf
  · intro h hs hf
    rcases ho : w.saml_response_field with _ | v
    · rw [ho] at hs
      simp at hs
    · simp [negotiate_saml, h, ho, hf]
      simpa using hf

/-- C9 witness: with all three initial cookies present, a parsable provider
response, and the Panopto auth cookie present at the end, negotiation returns
the session with the final cookie jar. -/
theorem claim_C9_witness :
    negotiate_saml
        ⟨["_csrf_token", "bbbbbbbbbbbbbbb", "JSESSIONID"], some "assertion",
         ["_csrf_token", "bbbbbbbbbbbbbbb", "JSESSIONID", ".ASPXAUTH"]⟩ =
      Except.ok
        ⟨["_csrf_token", "bbbbbbbbbbbbbbb", "JSESSIONID", ".ASPXAUTH"]⟩ :=
  (claim_C9_thm
      ⟨["_csrf_token", "bbbbbbbbbbbbbbb", "JSESSIONID"], some "assertion",
       ["_csrf_token", "bbbbbbbbbbbbbbb", "JSESSIONID", ".ASPXAUTH"]⟩).2.2.2
    (by decide) (by decide) (by decide)

end PanoptoScraper
